import Mathlib

/-!
Verification development for the Timetable Synchronization Engine of
`studentsphere-app/ots-server`.

The embedding below translates, into Lean:
  * the Credential Vault (`src/lib/encryption.ts`): the startup key-length
    check and the `encrypt`/`decrypt` wrappers around AES-256-GCM;
  * the academic-year fetch-window computation, the sync executor
    `performSync`, and the scheduling helpers (`src/queue/index.ts`);
  * the `POST /api/timetables` creation handler (server entry file).

Plaintext and ciphertext byte strings are `List Nat`; JS `Date` values are
`CivilDate` records (year / 1-based month / day-of-month) plus a day-number
timestamp scale for event-start comparisons; Prisma tables are Lean lists.
Nondeterministic inputs of the real code (the clock, `crypto.randomBytes`
IVs, `crypto.randomUUID`, the JSON parser, the provider registry, broker
availability) are passed in explicitly through environment records.
-/

set_option autoImplicit false

namespace OTS

/-! ## Credential Vault — `src/lib/encryption.ts` -/

/-- The hard-coded development fallback key of the encryption module
(`"0123456789abcdef0123456789abcdef"`, 32 characters). -/
def FALLBACK_KEY : String := "0123456789abcdef0123456789abcdef"

/-- JS `process.env.ENCRYPTION_KEY || fallback`: an absent variable and the
empty string are both falsy and select the fallback. -/
def effectiveEncryptionKey : Option String → String
  | some s => if s = "" then FALLBACK_KEY else s
  | none => FALLBACK_KEY

/-- Module-load-time check: `if (ENCRYPTION_KEY.length !== 32) throw ...`.
Returns the key that the module will use, or the thrown error message. -/
def startupKeyCheck (envKey : Option String) : Except String String :=
  let k := effectiveEncryptionKey envKey
  if k.length ≠ 32 then
    Except.error "ENCRYPTION_KEY must be exactly 32 characters long."
  else
    Except.ok k

/-- Numeric code of a string, used to feed key and IV material into the
idealized cipher primitives below. -/
def strCode (s : String) : Nat :=
  s.data.foldl (fun a c => a * 256 + c.toNat) 0

/-- Injective encoding of a byte string into a natural number. -/
def encodeBytes : List Nat → Nat
  | [] => 0
  | b :: bs => Nat.pair b (encodeBytes bs) + 1

/-- Modelled from the spec: the AES-256-GCM keystream of `node:crypto`
(external library, not part of this repository). GCM is counter-mode, so
byte `n` of the ciphertext is plaintext byte `n` XOR a keystream byte that
depends only on key, IV and position (§4.1: deterministic given the same
key+IV+plaintext). -/
def keystreamByte (key iv : String) (n : Nat) : Nat :=
  Nat.pair (strCode key) (Nat.pair (strCode iv) n) % 256

/-- XOR a byte string against the keystream, starting at position `n`.
Applying it twice with the same key, IV and position is the identity, which
is exactly how GCM decryption inverts GCM encryption. -/
def xorKS (key iv : String) (n : Nat) : List Nat → List Nat
  | [] => []
  | b :: bs => (b ^^^ keystreamByte key iv n) :: xorKS key iv (n + 1) bs

/-- Modelled from the spec: the GCM authentication tag of `node:crypto`,
idealized as a MAC that is injective in the ciphertext for a fixed key and
IV (§4.1: decryption fails if the tag does not verify — tampering with any
ciphertext or tag bit is detected). -/
def gcmTag (key iv : String) (ct : List Nat) : Nat :=
  Nat.pair (strCode key) (Nat.pair (strCode iv) (encodeBytes ct))

/-- Errors thrown by `decrypt`: the `"Invalid encrypted data format"` throw
for a missing part of the `<hex-ciphertext>:<hex-auth-tag>` blob, and the
authentication failure thrown by `decipher.final()` on a bad tag. -/
inductive DecryptError where
  | malformed
  | authenticationFailed
deriving DecidableEq

/-- The stored blob `` `${encrypted}:${authTag}` ``, kept in structured form:
`ciphertext` is the byte string whose hex spelling stands left of the `:`,
`authTag` the idealized tag standing right of it. -/
structure CipherText where
  ciphertext : List Nat
  authTag : Nat
deriving DecidableEq

/-- Return value of `encrypt`: `{ encryptedData, iv }`. -/
structure EncryptResult where
  encryptedData : CipherText
  iv : String
deriving DecidableEq

/-- `encrypt(text)` from `src/lib/encryption.ts`: a fresh random IV is drawn
by the caller of this embedding and passed as `ivRand` (hex form); the text
is enciphered with AES-256-GCM and the auth tag appended after a `:`. -/
def encrypt (key ivRand : String) (text : List Nat) : EncryptResult :=
  let ct := xorKS key ivRand 0 text
  { encryptedData := { ciphertext := ct, authTag := gcmTag key ivRand ct }
    iv := ivRand }

/-- `decrypt(encryptedData, ivHex)` from `src/lib/encryption.ts`. The code
splits on `":"` and throws `"Invalid encrypted data format"` when
`!encryptedText` — in particular when the ciphertext part is the empty
string, i.e. the empty byte string here. Otherwise the GCM tag is checked
and `decipher.final()` throws on mismatch. -/
def decrypt (key : String) (encryptedData : CipherText) (ivHex : String) :
    Except DecryptError (List Nat) :=
  if encryptedData.ciphertext.isEmpty then
    Except.error DecryptError.malformed
  else if encryptedData.authTag = gcmTag key ivHex encryptedData.ciphertext then
    Except.ok (xorKS key ivHex 0 encryptedData.ciphertext)
  else
    Except.error DecryptError.authenticationFailed

/-- Flip bit `k` of byte `i` of a byte string. -/
def flipBit (bs : List Nat) (i k : Nat) : List Nat :=
  bs.set i ((bs.getD i 0) ^^^ 2 ^ k)

theorem xorKS_xorKS (key iv : String) (n : Nat) (bs : List Nat) :
    xorKS key iv n (xorKS key iv n bs) = bs := by
  induction bs generalizing n with
  | nil => rfl
  | cons b bs ih =>
      simp [xorKS, Nat.xor_cancel_right, ih]

theorem xorKS_length (key iv : String) (n : Nat) (bs : List Nat) :
    (xorKS key iv n bs).length = bs.length := by
  induction bs generalizing n with
  | nil => rfl
  | cons b bs ih => simp [xorKS, ih]

theorem encodeBytes_injective : Function.Injective encodeBytes := by
  intro as bs h
  induction as generalizing bs with
  | nil =>
      cases bs with
      | nil => rfl
      | cons b bs => simp [encodeBytes] at h
  | cons a as ih =>
      cases bs with
      | nil => simp [encodeBytes] at h
      | cons b bs =>
          simp only [encodeBytes, Nat.add_right_cancel_iff, Nat.pair_eq_pair] at h
          rw [h.1, ih h.2]

theorem gcmTag_inj_ct (key iv : String) {ct ct' : List Nat}
    (h : gcmTag key iv ct = gcmTag key iv ct') : ct = ct' := by
  unfold gcmTag at h
  have h2 := (Nat.pair_eq_pair.mp h).2
  exact encodeBytes_injective (Nat.pair_eq_pair.mp h2).2

theorem flipBit_ne (bs : List Nat) (i k : Nat) (hi : i < bs.length) :
    flipBit bs i k ≠ bs := by
  intro h
  have hq := congrArg (fun l => l[i]?) h
  simp only [flipBit] at hq
  rw [List.getElem?_set_eq_of_lt _ hi, List.getElem?_eq_getElem hi] at hq
  have hgd : bs.getD i 0 = bs[i] := List.getD_eq_getElem bs 0 hi
  rw [hgd, Option.some_inj] at hq
  have hx : bs[i] ^^^ (bs[i] ^^^ 2 ^ k) = bs[i] ^^^ bs[i] := by rw [hq]
  rw [Nat.xor_cancel_left, Nat.xor_self] at hx
  have h2 : (2 : Nat) ^ k ≠ 0 := by positivity
  exact h2 hx

/-! ## Dates and the fetch window — `src/queue/index.ts`, lines 94–108 -/

/-- A calendar date as carried by a JS `Date`: year, 1-based month
(JS `getMonth()` is this month minus one) and day of month. -/
structure CivilDate where
  year : Int
  month : Nat
  day : Nat
deriving DecidableEq

/-- Gregorian month lengths, as JS `Date` day-of-month normalization uses
them (1-based month). -/
def daysInMonth (y : Int) (m : Nat) : Nat :=
  if m = 1 then 31
  else if m = 2 then (if y % 4 = 0 ∧ (y % 100 ≠ 0 ∨ y % 400 = 0) then 29 else 28)
  else if m = 3 then 31
  else if m = 4 then 30
  else if m = 5 then 31
  else if m = 6 then 30
  else if m = 7 then 31
  else if m = 8 then 31
  else if m = 9 then 30
  else if m = 10 then 31
  else if m = 11 then 30
  else 31

theorem daysInMonth_pos (y : Int) (m : Nat) : 0 < daysInMonth y m := by
  unfold daysInMonth
  repeat' split
  all_goals omega

/-- JS `Date` day-of-month normalization: a day count past the end of the
month rolls into the following months, as `to.setDate(to.getDate() + 14)`
relies on. -/
def rollDay (y : Int) (m : Nat) (d : Nat) : CivilDate :=
  if _h : d ≤ daysInMonth y m then { year := y, month := m, day := d }
  else
    rollDay (if m = 12 then y + 1 else y) (if m = 12 then 1 else m + 1)
      (d - daysInMonth y m)
termination_by d
decreasing_by
  have := daysInMonth_pos y m
  omega

/-- The fetch window of `performSync` (`src/queue/index.ts` lines 94–108):
`startYear` is the current year, minus one when `now.getMonth() < 8`
(January–August); the window runs from `new Date(startYear, 8, 1)`
(September 1) to `new Date(startYear + 1, 7, 30)` (August 30) moved
14 days later by `setDate`. -/
def computePeriod (now : CivilDate) : CivilDate × CivilDate :=
  let currentYear := now.year
  let startYear := if now.month - 1 < 8 then currentYear - 1 else currentYear
  let startDate : CivilDate := { year := startYear, month := 9, day := 1 }
  let endDate : CivilDate := { year := startYear + 1, month := 8, day := 30 }
  (startDate, rollDay endDate.year endDate.month (endDate.day + 14))

/-- Days since the JS epoch (1970-01-01) of a civil date, the timestamp
scale on which stored event starts are compared against the window start
(`start: { gte: from }`). Standard days-from-civil computation with floor
division. -/
def dayNumber (dt : CivilDate) : Int :=
  let y : Int := if dt.month ≤ 2 then dt.year - 1 else dt.year
  let m : Int := (dt.month : Int)
  let d : Int := (dt.day : Int)
  let era : Int := Int.fdiv y 400
  let yoe : Int := y - era * 400
  let mp : Int := if dt.month > 2 then m - 3 else m + 9
  let doy : Int := Int.fdiv (153 * mp + 2) 5 + d - 1
  let doe : Int := yoe * 365 + Int.fdiv yoe 4 - Int.fdiv yoe 100 + doy
  era * 146097 + doe - 719468

/-! ## Data model — Prisma tables as lists -/

/-- A `Credentials` row: the encrypted blob and its IV, 1:1 with a
timetable. -/
structure CredentialRecord where
  encryptedCredentials : CipherText
  iv : String
deriving DecidableEq

/-- A `Timetable` row (the spec's ScheduleEntity), with its credential
record inlined the way `findUnique({ include: { credentials: true } })`
returns it. -/
structure Timetable where
  id : String
  userId : String
  providerId : String
  schoolId : Option String
  syncInterval : Nat
  lastSyncedAt : Option CivilDate
  credentials : Option CredentialRecord
deriving DecidableEq

/-- A stored `Course` row (the spec's Event). `start` and `stop` are
timestamps on the `dayNumber` scale. -/
structure Course where
  timetableId : String
  hash : String
  subject : String
  start : Int
  stop : Int
  location : Option String
  teacher : Option String
  color : Option String
deriving DecidableEq

/-- A course as returned by `provider.getSchedule`: the hash may be absent
(or empty, which JS `c.hash || crypto.randomUUID()` also replaces). -/
structure FetchedCourse where
  hash : Option String
  subject : String
  start : Int
  stop : Int
  location : Option String
  teacher : Option String
  color : Option String
deriving DecidableEq

/-- A BullMQ repeatable-job registration: `id` is the `jobId` passed at
creation (`sync-<timetableId>`), `key` the broker-derived repeat key used
by `removeRepeatableByKey`, `every` the repeat interval in ms. -/
structure RepeatableJob where
  id : String
  key : String
  every : Nat
deriving DecidableEq

/-- The persistent state visible to the embedded operations: the Prisma
tables plus the broker's repeatable-job table and one-off job queue. -/
structure DB where
  timetables : List Timetable
  courses : List Course
  repeatableJobs : List RepeatableJob
  oneOffJobs : List String
deriving DecidableEq

/-! ## Providers and environments -/

/-- The object produced by `JSON.parse(decryptedCredsStr)`: an opaque rest
plus the `schoolId` field that `performSync` may overwrite. -/
structure ProviderCredentials where
  rest : String
  schoolId : Option String
deriving DecidableEq

/-- Ghost record of one `provider.getSchedule(credentials, from, to)`
invocation, used to state which arguments the executor passes. -/
structure ProviderCall where
  credentials : ProviderCredentials
  fromDate : CivilDate
  toDate : CivilDate
deriving DecidableEq

/-- A provider object from the registry: its school list and the two
capability operations. Fallible operations return `Except` (a JS throw is
the `error` case). `validateCredentials` receives the raw
`{identifier, password, schoolId}` of the request body. -/
structure Provider where
  schools : List String
  validateCredentials : String → String → Option String → Except String Bool
  getSchedule : ProviderCredentials → CivilDate → CivilDate → Except String (List FetchedCourse)

/-- Ambient inputs of `performSync`: broker availability (`timetableQueue`
non-null), the encryption key, the provider registry (`getProvider`), the
JSON parser for decrypted credential bytes, the clock (`new Date()`), and
the `crypto.randomUUID()` stream indexed by course position. -/
structure SyncEnv where
  queueAvailable : Bool
  encryptionKey : String
  getProviderFn : String → Option Provider
  parseJson : List Nat → Except String ProviderCredentials
  now : CivilDate
  uuid : Nat → String

/-- Errors thrown (and rethrown by the catch-all) inside `performSync`. -/
inductive SyncError where
  | unknownProvider (providerId : String)
  | decryptionFailed (e : DecryptError)
  | jsonParseFailed (e : String)
  | providerFetchFailed (e : String)
deriving DecidableEq

/-- Non-throwing return values of `performSync`:
`queueUnavailable` is `{ success: false, message: "Queue not initialized" }`,
`notFound` is `{ success: false, message: "Timetable not found" }`,
`synced n` is `{ success: true, coursesCount: n }`. -/
inductive SyncResult where
  | queueUnavailable
  | notFound
  | synced (coursesCount : Nat)
deriving DecidableEq

instance {ε α : Type} [DecidableEq ε] [DecidableEq α] :
    DecidableEq (Except ε α) := fun x y =>
  match x, y with
  | Except.ok a, Except.ok b =>
      if h : a = b then isTrue (by rw [h]) else isFalse (by simp [h])
  | Except.error a, Except.error b =>
      if h : a = b then isTrue (by rw [h]) else isFalse (by simp [h])
  | Except.ok _, Except.error _ => isFalse (by simp)
  | Except.error _, Except.ok _ => isFalse (by simp)

/-- Result of one `performSync` run: its return-or-throw, the state after
the run, and the ghost trace of provider invocations. -/
structure SyncOutcome where
  result : Except SyncError SyncResult
  db : DB
  providerCalls : List ProviderCall
deriving DecidableEq

/-! ## Queue operations — `src/queue/index.ts` -/

/-- The loop `for (const job of repeatableJobs) if (job.id === jobId)
await queue.removeRepeatableByKey(job.key)`: fold over the fetched
snapshot, each matching job removing its key from the live table. -/
def removeMatchingRepeatable (jobs snapshot : List RepeatableJob)
    (jobId : String) : List RepeatableJob :=
  snapshot.foldl
    (fun acc job =>
      if job.id = jobId then acc.filter (fun j => j.key ≠ job.key) else acc)
    jobs

/-- The soft "not found" exit of `performSync`: remove the repeatable jobs
registered under `sync-<timetableId>` and return `success: false`. -/
def notFoundOutcome (db : DB) (timetableId : String) : SyncOutcome :=
  { result := Except.ok SyncResult.notFound
    db := { db with
      repeatableJobs :=
        removeMatchingRepeatable db.repeatableJobs db.repeatableJobs
          ("sync-" ++ timetableId) }
    providerCalls := [] }

/-- Lines 90–92: `if (timetable.schoolId) credentials.schoolId =
timetable.schoolId` — a JS truthiness test, so a `null` or empty-string
`schoolId` leaves the parsed credentials unmodified. -/
def applySchoolId (t : Timetable) (c : ProviderCredentials) :
    ProviderCredentials :=
  match t.schoolId with
  | some s => if s = "" then c else { c with schoolId := some s }
  | none => c

/-- The `createMany` payload of lines 122–135: each fetched course becomes
a row for this timetable; `c.hash || crypto.randomUUID()` generates a hash
when the fetched one is absent or empty. -/
def insertedCourses (env : SyncEnv) (tid : String)
    (courses : List FetchedCourse) : List Course :=
  courses.mapIdx (fun i c =>
    { timetableId := tid
      hash := match c.hash with
        | some hsh => if hsh = "" then env.uuid i else hsh
        | none => env.uuid i
      subject := c.subject
      start := c.start
      stop := c.stop
      location := c.location
      teacher := c.teacher
      color := c.color })

/-- `performSync(timetableId)` from `src/queue/index.ts` lines 53–152,
translated step by step: queue guard, entity+credentials lookup with
job cleanup on absence, provider resolution, decryption, JSON parse,
schoolId override, window computation, provider fetch, delete-then-insert
reconciliation, last-synced update. A thrown error is an `Except.error`
result carrying the state as mutated so far. -/
def performSync (env : SyncEnv) (db : DB) (timetableId : String) :
    SyncOutcome :=
  if env.queueAvailable = false then
    { result := Except.ok SyncResult.queueUnavailable, db := db
      providerCalls := [] }
  else
    match db.timetables.find? (fun t => t.id == timetableId) with
    | none => notFoundOutcome db timetableId
    | some t =>
      match t.credentials with
      | none => notFoundOutcome db timetableId
      | some creds =>
        match env.getProviderFn t.providerId with
        | none =>
            { result := Except.error (SyncError.unknownProvider t.providerId)
              db := db, providerCalls := [] }
        | some provider =>
          match decrypt env.encryptionKey creds.encryptedCredentials creds.iv with
          | Except.error e =>
              { result := Except.error (SyncError.decryptionFailed e)
                db := db, providerCalls := [] }
          | Except.ok bytes =>
            match env.parseJson bytes with
            | Except.error e =>
                { result := Except.error (SyncError.jsonParseFailed e)
                  db := db, providerCalls := [] }
            | Except.ok parsed =>
              let credentials := applySchoolId t parsed
              let period := computePeriod env.now
              match provider.getSchedule credentials period.1 period.2 with
              | Except.error e =>
                  { result := Except.error (SyncError.providerFetchFailed e)
                    db := db
                    providerCalls := [⟨credentials, period.1, period.2⟩] }
              | Except.ok courses =>
                let fromTs := dayNumber period.1
                let db1 := { db with
                  courses := db.courses.filter
                    (fun c => ¬ (c.timetableId = t.id ∧ fromTs ≤ c.start)) }
                let db2 :=
                  if courses.length > 0 then
                    { db1 with
                      courses := db1.courses ++ insertedCourses env t.id courses }
                  else db1
                let db3 := { db2 with
                  timetables := db2.timetables.map (fun t2 =>
                    if t2.id = t.id then { t2 with lastSyncedAt := some env.now }
                    else t2) }
                { result := Except.ok (SyncResult.synced courses.length)
                  db := db3
                  providerCalls := [⟨credentials, period.1, period.2⟩] }

/-- Modelled from the spec: the repeat key BullMQ derives for a repeatable
job (the broker is an external collaborator; §3 only requires a
deterministic key derived from the job id and interval). -/
def repeatKey (jobId : String) (everyMs : Nat) : String :=
  jobId ++ ":" ++ toString everyMs

/-- `scheduleTimetableSync(timetableId, intervalMinutes)` from lines
179–209: no-op without a queue; otherwise remove every repeatable job
registered under `sync-<timetableId>` and add a fresh one repeating every
`intervalMinutes * 60 * 1000` ms. -/
def scheduleTimetableSync (queueAvailable : Bool) (db : DB)
    (timetableId : String) (intervalMinutes : Nat) : DB :=
  if queueAvailable = false then db
  else
    let jobId := "sync-" ++ timetableId
    let everyMs := intervalMinutes * 60 * 1000
    let cleaned := removeMatchingRepeatable db.repeatableJobs db.repeatableJobs jobId
    { db with
      repeatableJobs :=
        cleaned ++ [{ id := jobId, key := repeatKey jobId everyMs, every := everyMs }] }

/-- `triggerImmediateSync(timetableId)` from lines 212–221: no-op without a
queue; otherwise enqueue a one-off `sync-immediate` job. -/
def triggerImmediateSync (queueAvailable : Bool) (db : DB)
    (timetableId : String) : DB :=
  if queueAvailable = false then db
  else { db with oneOffJobs := db.oneOffJobs ++ [timetableId] }

/-! ## `POST /api/timetables` — server entry file -/

/-- The authenticated session, as far as the handler consults it. -/
structure Session where
  userId : String
  emailVerified : Bool
deriving DecidableEq

/-- The request body; absent string fields are the empty string (JS falsy),
`syncInterval` defaults to 60 at destructuring. -/
structure CreateBody where
  providerId : String
  schoolId : Option String
  identifier : String
  password : String
  syncInterval : Nat
deriving DecidableEq

/-- The handler's possible HTTP responses. -/
inductive CreateResult where
  | unauthorized
  | emailNotVerified
  | badRequest
  | unknownProvider
  | missingSchool
  | invalidCredentials
  | alreadyExists
  | internalError (e : String)
  | accepted (timetableId : String)
deriving DecidableEq

/-- JS falsiness of the optional `schoolId` body field. -/
def schoolIdFalsy : Option String → Bool
  | none => true
  | some s => s = ""

/-- `schoolId && schoolId.trim() !== "" ? schoolId : null`. -/
def normalizeSchoolId : Option String → Option String
  | some s => if s ≠ "" ∧ s.trim ≠ "" then some s else none
  | none => none

/-- Byte string standing for `JSON.stringify({ identifier, password })`. -/
def stringifyCreds (identifier password : String) : List Nat :=
  identifier.data.map Char.toNat ++ [58] ++ password.data.map Char.toNat

/-- Ambient inputs of the creation handler: broker availability, the
encryption key, the registry, the random IV drawn by `encrypt`, and the id
Prisma generates for the created row. -/
structure CreateEnv where
  queueAvailable : Bool
  encryptionKey : String
  getProviderFn : String → Option Provider
  freshIv : String
  newId : String

/-- The `POST /api/timetables` handler: session and email-verification
guards, required-field check, provider resolution, school requirement,
credential validation, encryption, duplicate-triple lookup
(`findFirst({ userId, providerId, schoolId: normalizedSchoolId })`),
creation with nested credential record, immediate trigger and recurring
scheduling. -/
def createTimetable (env : CreateEnv) (db : DB) (session : Option Session)
    (body : CreateBody) : CreateResult × DB :=
  match session with
  | none => (CreateResult.unauthorized, db)
  | some s =>
    if s.emailVerified = false then (CreateResult.emailNotVerified, db)
    else if body.providerId = "" ∨ body.identifier = "" ∨ body.password = "" then
      (CreateResult.badRequest, db)
    else
      match env.getProviderFn body.providerId with
      | none => (CreateResult.unknownProvider, db)
      | some provider =>
        if provider.schools.length > 0 ∧ schoolIdFalsy body.schoolId then
          (CreateResult.missingSchool, db)
        else
          match provider.validateCredentials body.identifier body.password body.schoolId with
          | Except.error e => (CreateResult.internalError e, db)
          | Except.ok false => (CreateResult.invalidCredentials, db)
          | Except.ok true =>
            let enc := encrypt env.encryptionKey env.freshIv
              (stringifyCreds body.identifier body.password)
            let normalized := normalizeSchoolId body.schoolId
            match db.timetables.find? (fun t =>
                t.userId == s.userId && t.providerId == body.providerId &&
                t.schoolId == normalized) with
            | some _ => (CreateResult.alreadyExists, db)
            | none =>
              let newT : Timetable :=
                { id := env.newId
                  userId := s.userId
                  providerId := body.providerId
                  schoolId := normalized
                  syncInterval := body.syncInterval
                  lastSyncedAt := none
                  credentials := some
                    { encryptedCredentials := enc.encryptedData, iv := enc.iv } }
              let db1 := { db with timetables := db.timetables ++ [newT] }
              let db2 := triggerImmediateSync env.queueAvailable db1 env.newId
              let db3 := scheduleTimetableSync env.queueAvailable db2 env.newId
                body.syncInterval
              (CreateResult.accepted env.newId, db3)

/-! ## Lemmas about the repeatable-job removal loop -/

theorem mem_removeMatchingRepeatable {jobs snapshot : List RepeatableJob}
    {jobId : String} {j : RepeatableJob} :
    j ∈ removeMatchingRepeatable jobs snapshot jobId ↔
      j ∈ jobs ∧ ∀ job ∈ snapshot, job.id = jobId → j.key ≠ job.key := by
  induction snapshot generalizing jobs with
  | nil => simp [removeMatchingRepeatable]
  | cons job rest ih =>
      have hstep : removeMatchingRepeatable jobs (job :: rest) jobId =
          removeMatchingRepeatable
            (if job.id = jobId then jobs.filter (fun j2 => j2.key ≠ job.key) else jobs)
            rest jobId := rfl
      rw [hstep, ih]
      by_cases h : job.id = jobId
      · simp only [if_pos h, List.mem_filter, decide_eq_true_eq]
        constructor
        · rintro ⟨⟨hj, hk⟩, hrest⟩
          refine ⟨hj, ?_⟩
          intro job2 hmem hid
          rcases List.mem_cons.mp hmem with rfl | hmem2
          · exact hk
          · exact hrest job2 hmem2 hid
        · rintro ⟨hj, hall⟩
          exact ⟨⟨hj, hall job (List.mem_cons_self _ _) h⟩,
            fun job2 hmem2 hid => hall job2 (List.mem_cons_of_mem _ hmem2) hid⟩
      · simp only [if_neg h]
        constructor
        · rintro ⟨hj, hrest⟩
          refine ⟨hj, ?_⟩
          intro job2 hmem hid
          rcases List.mem_cons.mp hmem with rfl | hmem2
          · exact absurd hid h
          · exact hrest job2 hmem2 hid
        · rintro ⟨hj, hall⟩
          exact ⟨hj, fun job2 hmem2 hid =>
            hall job2 (List.mem_cons_of_mem _ hmem2) hid⟩

theorem removeMatchingRepeatable_id_ne {db : List RepeatableJob}
    {jobId : String} {j : RepeatableJob}
    (hj : j ∈ removeMatchingRepeatable db db jobId) : j.id ≠ jobId := by
  intro hid
  obtain ⟨hmem, hall⟩ := mem_removeMatchingRepeatable.mp hj
  exact hall j hmem hid rfl

theorem removeMatchingRepeatable_subset {db : List RepeatableJob}
    {jobId : String} {j : RepeatableJob}
    (hj : j ∈ removeMatchingRepeatable db db jobId) : j ∈ db :=
  (mem_removeMatchingRepeatable.mp hj).1

theorem scheduleTimetableSync_count (db : DB) (timetableId : String)
    (intervalMinutes : Nat) :
    ((scheduleTimetableSync true db timetableId intervalMinutes).repeatableJobs.filter
      (fun j => j.id == "sync-" ++ timetableId)).length = 1 := by
  unfold scheduleTimetableSync
  simp only [Bool.true_eq_false, if_false, List.filter_append]
  have h1 : (removeMatchingRepeatable db.repeatableJobs db.repeatableJobs
      ("sync-" ++ timetableId)).filter (fun j => j.id == "sync-" ++ timetableId) = [] := by
    rw [List.filter_eq_nil_iff]
    intro j hj
    simpa using removeMatchingRepeatable_id_ne hj
  rw [h1]
  simp

theorem rollDay_aug_44 (y : Int) : rollDay y 8 44 = ⟨y, 9, 13⟩ := by
  rw [rollDay, rollDay]
  norm_num [daysInMonth]

/-- C3: for every current date, the fetch window starts on September 1 of
the previous calendar year when the current month is January through August
(month ≤ 8) and on September 1 of the current year otherwise; the window
end is August 30 of the following year plus 14 days, i.e. September 13 of
the year after the start year; in particular the window start for
2024-03-01 is 2023-09-01 and for 2024-10-01 is 2024-09-01. -/
theorem c3_fetch_window (now : CivilDate) :
    (computePeriod now).1 =
      { year := if now.month ≤ 8 then now.year - 1 else now.year
        month := 9, day := 1 } ∧
    (computePeriod now).2 =
      rollDay ((if now.month ≤ 8 then now.year - 1 else now.year) + 1) 8 (30 + 14) ∧
    (computePeriod now).2 =
      { year := (if now.month ≤ 8 then now.year - 1 else now.year) + 1
        month := 9, day := 13 } ∧
    (computePeriod { year := 2024, month := 3, day := 1 }).1 =
      { year := 2023, month := 9, day := 1 } ∧
    (computePeriod { year := 2024, month := 10, day := 1 }).1 =
      { year := 2024, month := 9, day := 1 } := by
  have hiff : (now.month - 1 < 8) = (now.month ≤ 8) := by
    apply propext
    omega
  refine ⟨?_, ?_, ?_, by decide, by decide⟩
  · simp only [computePeriod, hiff]
  · simp only [computePeriod, hiff]
  · simp only [computePeriod, hiff]
    exact rollDay_aug_44 _

/-- C6: when the timetable or its credential record is missing, the run
removes every repeatable-job registration keyed `sync-<entityId>`, returns
the soft "not found" result instead of throwing, performs no provider call,
and leaves courses, timetables and one-off jobs untouched. -/
theorem c6_missing_entity_soft_cleanup (env : SyncEnv) (db : DB)
    (timetableId : String)
    (hq : env.queueAvailable = true)
    (hmiss : db.timetables.find? (fun t => t.id == timetableId) = none ∨
      ∃ t, db.timetables.find? (fun t => t.id == timetableId) = some t ∧
        t.credentials = none) :
    (performSync env db timetableId).result = Except.ok SyncResult.notFound ∧
    (performSync env db timetableId).db.courses = db.courses ∧
    (performSync env db timetableId).db.timetables = db.timetables ∧
    (performSync env db timetableId).db.oneOffJobs = db.oneOffJobs ∧
    (performSync env db timetableId).providerCalls = [] ∧
    (∀ j ∈ (performSync env db timetableId).db.repeatableJobs,
      j.id ≠ "sync-" ++ timetableId) ∧
    (∀ j ∈ (performSync env db timetableId).db.repeatableJobs,
      j ∈ db.repeatableJobs) := by
  have hout : performSync env db timetableId = notFoundOutcome db timetableId := by
    rcases hmiss with h | ⟨t, ht, hc⟩
    · simp [performSync, hq, h]
    · simp [performSync, hq, ht, hc]
  rw [hout]
  exact ⟨rfl, rfl, rfl, rfl, rfl,
    fun j hj => removeMatchingRepeatable_id_ne hj,
    fun j hj => removeMatchingRepeatable_subset hj⟩

/-- Environment for concrete runs whose provider and parser are never
consulted. -/
def envMissing : SyncEnv :=
  { queueAvailable := true
    encryptionKey := "k"
    getProviderFn := fun _ => none
    parseJson := fun _ => Except.error "unused"
    now := { year := 2024, month := 3, day := 1 }
    uuid := fun _ => "uuid-0" }

/-- State with no timetable `t1` but a stale repeatable job for it. -/
def dbMissing : DB :=
  { timetables := []
    courses := [{ timetableId := "t1", hash := "h", subject := "s",
                  start := 0, stop := 1, location := none, teacher := none,
                  color := none }]
    repeatableJobs := [{ id := "sync-t1", key := "key1", every := 60000 },
                       { id := "other", key := "key2", every := 60000 }]
    oneOffJobs := [] }

/-- C6 witness: the hypotheses of `c6_missing_entity_soft_cleanup` hold at
a concrete state with a deleted timetable and a stale job. -/
theorem c6_missing_entity_soft_cleanup_witness :
    (performSync envMissing dbMissing "t1").result =
      Except.ok SyncResult.notFound ∧
    (performSync envMissing dbMissing "t1").db.courses = dbMissing.courses := by
  have h := c6_missing_entity_soft_cleanup envMissing dbMissing "t1" rfl
    (Or.inl (by decide))
  exact ⟨h.1, h.2.1⟩

/-- C7: scheduling a recurring sync for an entity, twice and with any
intervals, leaves exactly one repeatable-job registration keyed
`sync-<entityId>` — already after the first call, and still after the
second, because each call removes every registration under that key before
adding its own. -/
theorem c7_schedule_recurring_idempotent (db : DB) (timetableId : String)
    (i1 i2 : Nat) :
    ((scheduleTimetableSync true db timetableId i1).repeatableJobs.filter
      (fun j => j.id == "sync-" ++ timetableId)).length = 1 ∧
    ((scheduleTimetableSync true (scheduleTimetableSync true db timetableId i1)
        timetableId i2).repeatableJobs.filter
      (fun j => j.id == "sync-" ++ timetableId)).length = 1 :=
  ⟨scheduleTimetableSync_count db timetableId i1,
   scheduleTimetableSync_count _ timetableId i2⟩

/-! ## Path lemmas for `performSync` -/

theorem performSync_reconcile_eq (env : SyncEnv) (db : DB) (timetableId : String)
    (t : Timetable) (creds : CredentialRecord) (provider : Provider)
    (bytes : List Nat) (parsed : ProviderCredentials) (fetched : List FetchedCourse)
    (hq : env.queueAvailable = true)
    (ht : db.timetables.find? (fun t2 => t2.id == timetableId) = some t)
    (hc : t.credentials = some creds)
    (hp : env.getProviderFn t.providerId = some provider)
    (hd : decrypt env.encryptionKey creds.encryptedCredentials creds.iv = Except.ok bytes)
    (hj : env.parseJson bytes = Except.ok parsed)
    (hg : provider.getSchedule (applySchoolId t parsed) (computePeriod env.now).1
      (computePeriod env.now).2 = Except.ok fetched) :
    performSync env db timetableId =
      { result := Except.ok (SyncResult.synced fetched.length)
        db :=
          { timetables := db.timetables.map (fun t2 =>
              if t2.id = t.id then { t2 with lastSyncedAt := some env.now } else t2)
            courses :=
              db.courses.filter (fun c =>
                  ¬ (c.timetableId = t.id ∧ dayNumber (computePeriod env.now).1 ≤ c.start))
                ++ insertedCourses env t.id fetched
            repeatableJobs := db.repeatableJobs
            oneOffJobs := db.oneOffJobs }
        providerCalls := [⟨applySchoolId t parsed, (computePeriod env.now).1,
          (computePeriod env.now).2⟩] } := by
  by_cases hlen : fetched.length > 0
  · simp [performSync, hq, ht, hc, hp, hd, hj, hg, hlen]
  · have hnil : fetched = [] := by
      cases fetched with
      | nil => rfl
      | cons a l => simp at hlen
    subst hnil
    simp [performSync, hq, ht, hc, hp, hd, hj, hg, insertedCourses]

theorem performSync_fetch_error_eq (env : SyncEnv) (db : DB) (timetableId : String)
    (t : Timetable) (creds : CredentialRecord) (provider : Provider)
    (bytes : List Nat) (parsed : ProviderCredentials) (e : String)
    (hq : env.queueAvailable = true)
    (ht : db.timetables.find? (fun t2 => t2.id == timetableId) = some t)
    (hc : t.credentials = some creds)
    (hp : env.getProviderFn t.providerId = some provider)
    (hd : decrypt env.encryptionKey creds.encryptedCredentials creds.iv = Except.ok bytes)
    (hj : env.parseJson bytes = Except.ok parsed)
    (hg : provider.getSchedule (applySchoolId t parsed) (computePeriod env.now).1
      (computePeriod env.now).2 = Except.error e) :
    performSync env db timetableId =
      { result := Except.error (SyncError.providerFetchFailed e)
        db := db
        providerCalls := [⟨applySchoolId t parsed, (computePeriod env.now).1,
          (computePeriod env.now).2⟩] } := by
  simp [performSync, hq, ht, hc, hp, hd, hj, hg]

/-! ## Claims C1, C4, C5 -/

/-- C1: a sync run that reaches reconciliation replaces the stored course
table by the old table with every course of this entity whose start is at
or after the window start removed, followed by the freshly fetched courses
(delete before insert); every old course of another entity, or with start
strictly before the window start, is still present afterwards. -/
theorem c1_reconciliation_frame (env : SyncEnv) (db : DB) (timetableId : String)
    (t : Timetable) (creds : CredentialRecord) (provider : Provider)
    (bytes : List Nat) (parsed : ProviderCredentials) (fetched : List FetchedCourse)
    (hq : env.queueAvailable = true)
    (ht : db.timetables.find? (fun t2 => t2.id == timetableId) = some t)
    (hc : t.credentials = some creds)
    (hp : env.getProviderFn t.providerId = some provider)
    (hd : decrypt env.encryptionKey creds.encryptedCredentials creds.iv = Except.ok bytes)
    (hj : env.parseJson bytes = Except.ok parsed)
    (hg : provider.getSchedule (applySchoolId t parsed) (computePeriod env.now).1
      (computePeriod env.now).2 = Except.ok fetched) :
    (performSync env db timetableId).db.courses =
      db.courses.filter (fun c =>
          ¬ (c.timetableId = t.id ∧ dayNumber (computePeriod env.now).1 ≤ c.start))
        ++ insertedCourses env t.id fetched ∧
    (∀ c ∈ db.courses, c.timetableId = t.id →
      dayNumber (computePeriod env.now).1 ≤ c.start →
      c ∉ db.courses.filter (fun c2 =>
        ¬ (c2.timetableId = t.id ∧ dayNumber (computePeriod env.now).1 ≤ c2.start))) ∧
    (∀ c ∈ db.courses,
      (c.timetableId ≠ t.id ∨ c.start < dayNumber (computePeriod env.now).1) →
      c ∈ (performSync env db timetableId).db.courses) := by
  have heq := performSync_reconcile_eq env db timetableId t creds provider bytes
    parsed fetched hq ht hc hp hd hj hg
  rw [heq]
  refine ⟨rfl, ?_, ?_⟩
  · intro c _ hid hge
    simp only [List.mem_filter, decide_eq_true_eq]
    rintro ⟨-, hpred⟩
    exact hpred ⟨hid, hge⟩
  · intro c hcmem hcond
    apply List.mem_append_left
    rw [List.mem_filter]
    refine ⟨hcmem, ?_⟩
    simp only [decide_eq_true_eq]
    rintro ⟨hid, hge⟩
    rcases hcond with h | h
    · exact h hid
    · omega

/-- C4: with the run reaching the provider call, an empty provider result
yields the successful outcome `coursesCount = 0`, removes every stored
course of the entity with start in `[from, ∞)`, and sets the entity's
last-synced timestamp to a non-null value, while a thrown provider fetch
propagates as an error result. -/
theorem c4_zero_result_sync (env : SyncEnv) (db : DB) (timetableId : String)
    (t : Timetable) (creds : CredentialRecord) (provider : Provider)
    (bytes : List Nat) (parsed : ProviderCredentials)
    (hq : env.queueAvailable = true)
    (ht : db.timetables.find? (fun t2 => t2.id == timetableId) = some t)
    (hc : t.credentials = some creds)
    (hp : env.getProviderFn t.providerId = some provider)
    (hd : decrypt env.encryptionKey creds.encryptedCredentials creds.iv = Except.ok bytes)
    (hj : env.parseJson bytes = Except.ok parsed) :
    (provider.getSchedule (applySchoolId t parsed) (computePeriod env.now).1
        (computePeriod env.now).2 = Except.ok [] →
      (performSync env db timetableId).result = Except.ok (SyncResult.synced 0) ∧
      (performSync env db timetableId).db.courses =
        db.courses.filter (fun c =>
          ¬ (c.timetableId = t.id ∧ dayNumber (computePeriod env.now).1 ≤ c.start)) ∧
      (∀ t2 ∈ (performSync env db timetableId).db.timetables,
        t2.id = t.id → t2.lastSyncedAt ≠ none)) ∧
    (∀ e, provider.getSchedule (applySchoolId t parsed) (computePeriod env.now).1
        (computePeriod env.now).2 = Except.error e →
      (performSync env db timetableId).result =
        Except.error (SyncError.providerFetchFailed e)) := by
  constructor
  · intro hg
    have heq := performSync_reconcile_eq env db timetableId t creds provider bytes
      parsed [] hq ht hc hp hd hj hg
    rw [heq]
    refine ⟨rfl, ?_, ?_⟩
    · simp [insertedCourses]
    · intro t2 ht2 hid
      rcases List.mem_map.mp ht2 with ⟨t0, _, rfl⟩
      by_cases h0 : t0.id = t.id
      · simp [h0]
      · rw [if_neg h0] at hid ⊢
        exact absurd hid h0
  · intro e hg
    have heq := performSync_fetch_error_eq env db timetableId t creds provider bytes
      parsed e hq ht hc hp hd hj hg
    rw [heq]

/-- C5: when the provider call throws, `performSync` rethrows it and leaves
the whole stored state (courses, timetables — in particular the last-synced
timestamp — and jobs) exactly as it was. -/
theorem c5_fetch_failure_preserves_state (env : SyncEnv) (db : DB)
    (timetableId : String)
    (t : Timetable) (creds : CredentialRecord) (provider : Provider)
    (bytes : List Nat) (parsed : ProviderCredentials) (e : String)
    (hq : env.queueAvailable = true)
    (ht : db.timetables.find? (fun t2 => t2.id == timetableId) = some t)
    (hc : t.credentials = some creds)
    (hp : env.getProviderFn t.providerId = some provider)
    (hd : decrypt env.encryptionKey creds.encryptedCredentials creds.iv = Except.ok bytes)
    (hj : env.parseJson bytes = Except.ok parsed)
    (hg : provider.getSchedule (applySchoolId t parsed) (computePeriod env.now).1
      (computePeriod env.now).2 = Except.error e) :
    (performSync env db timetableId).result =
      Except.error (SyncError.providerFetchFailed e) ∧
    (performSync env db timetableId).db = db := by
  have heq := performSync_fetch_error_eq env db timetableId t creds provider bytes
    parsed e hq ht hc hp hd hj hg
  rw [heq]
  exact ⟨rfl, rfl⟩

/-! ## Concrete states for witnesses -/

/-- Encrypted credential blob used by the concrete states below. -/
def ctSync : EncryptResult := encrypt "k" "i" [1, 2]

/-- Credential row decrypting (under key `"k"`) to the blob `[1, 2]`. -/
def credsSync : CredentialRecord :=
  { encryptedCredentials := ctSync.encryptedData, iv := ctSync.iv }

/-- A timetable without school scoping. -/
def tSync : Timetable :=
  { id := "t1", userId := "u1", providerId := "prov", schoolId := none
    syncInterval := 60, lastSyncedAt := none, credentials := some credsSync }

/-- Parse result of the decrypted blob. -/
def parsedSync : ProviderCredentials := { rest := "rest", schoolId := none }

/-- A stored course of entity `t1` with start inside the window (the window
start for now = 2024-03-01 is 2023-09-01, day number 19601). -/
def courseInWindow : Course :=
  { timetableId := "t1", hash := "h1", subject := "A", start := 100000
    stop := 100001, location := none, teacher := none, color := none }

/-- A stored course of entity `t1` with start before the window. -/
def courseBefore : Course :=
  { timetableId := "t1", hash := "h2", subject := "B", start := 0
    stop := 1, location := none, teacher := none, color := none }

/-- A stored course of a different entity with start inside the window. -/
def courseOther : Course :=
  { timetableId := "t2", hash := "h3", subject := "C", start := 100000
    stop := 100001, location := none, teacher := none, color := none }

/-- Concrete state holding `tSync` and the three courses above. -/
def dbSync : DB :=
  { timetables := [tSync]
    courses := [courseInWindow, courseBefore, courseOther]
    repeatableJobs := [], oneOffJobs := [] }

/-- A course fetched by the witness provider. -/
def fetchedOne : FetchedCourse :=
  { hash := some "h9", subject := "Math", start := 100000, stop := 100001
    location := none, teacher := none, color := none }

/-- Environment whose registry always resolves to `p` and whose JSON parser
yields `parsedSync`. -/
def mkEnv (p : Provider) : SyncEnv :=
  { queueAvailable := true
    encryptionKey := "k"
    getProviderFn := fun _ => some p
    parseJson := fun _ => Except.ok parsedSync
    now := { year := 2024, month := 3, day := 1 }
    uuid := fun _ => "uuid-0" }

/-- Provider returning one course. -/
def provOk : Provider :=
  { schools := []
    validateCredentials := fun _ _ _ => Except.ok true
    getSchedule := fun _ _ _ => Except.ok [fetchedOne] }

/-- Provider returning no courses. -/
def provEmpty : Provider :=
  { schools := []
    validateCredentials := fun _ _ _ => Except.ok true
    getSchedule := fun _ _ _ => Except.ok [] }

/-- Provider whose fetch throws. -/
def provFail : Provider :=
  { schools := []
    validateCredentials := fun _ _ _ => Except.ok true
    getSchedule := fun _ _ _ => Except.error "boom" }

/-- C1 witness: the hypotheses of `c1_reconciliation_frame` hold at the
concrete state `dbSync` under the one-course provider. -/
theorem c1_reconciliation_frame_witness :
    (performSync (mkEnv provOk) dbSync "t1").db.courses =
      dbSync.courses.filter (fun c =>
          ¬ (c.timetableId = tSync.id ∧
            dayNumber (computePeriod (mkEnv provOk).now).1 ≤ c.start))
        ++ insertedCourses (mkEnv provOk) tSync.id [fetchedOne] :=
  (c1_reconciliation_frame (mkEnv provOk) dbSync "t1" tSync credsSync provOk
    [1, 2] parsedSync [fetchedOne] rfl (by decide) rfl rfl (by decide) rfl rfl).1

/-- C4 witness: the hypotheses of `c4_zero_result_sync` hold at `dbSync`
under the empty provider, giving the `coursesCount = 0` success. -/
theorem c4_zero_result_sync_witness :
    (performSync (mkEnv provEmpty) dbSync "t1").result =
      Except.ok (SyncResult.synced 0) ∧
    (performSync (mkEnv provEmpty) dbSync "t1").db.courses =
      dbSync.courses.filter (fun c =>
        ¬ (c.timetableId = tSync.id ∧
          dayNumber (computePeriod (mkEnv provEmpty).now).1 ≤ c.start)) := by
  have h := (c4_zero_result_sync (mkEnv provEmpty) dbSync "t1" tSync credsSync
    provEmpty [1, 2] parsedSync rfl (by decide) rfl rfl (by decide) rfl).1 rfl
  exact ⟨h.1, h.2.1⟩

/-- C5 witness: the hypotheses of `c5_fetch_failure_preserves_state` hold
at `dbSync` under the throwing provider. -/
theorem c5_fetch_failure_preserves_state_witness :
    (performSync (mkEnv provFail) dbSync "t1").result =
      Except.error (SyncError.providerFetchFailed "boom") ∧
    (performSync (mkEnv provFail) dbSync "t1").db = dbSync :=
  c5_fetch_failure_preserves_state (mkEnv provFail) dbSync "t1" tSync credsSync
    provFail [1, 2] parsedSync "boom" rfl (by decide) rfl rfl (by decide) rfl rfl

/-! ## Claim C10 -/

theorem performSync_providerCalls_eq (env : SyncEnv) (db : DB)
    (timetableId : String)
    (t : Timetable) (creds : CredentialRecord) (provider : Provider)
    (bytes : List Nat) (parsed : ProviderCredentials)
    (hq : env.queueAvailable = true)
    (ht : db.timetables.find? (fun t2 => t2.id == timetableId) = some t)
    (hc : t.credentials = some creds)
    (hp : env.getProviderFn t.providerId = some provider)
    (hd : decrypt env.encryptionKey creds.encryptedCredentials creds.iv = Except.ok bytes)
    (hj : env.parseJson bytes = Except.ok parsed) :
    (performSync env db timetableId).providerCalls =
      [⟨applySchoolId t parsed, (computePeriod env.now).1,
        (computePeriod env.now).2⟩] := by
  cases hg : provider.getSchedule (applySchoolId t parsed) (computePeriod env.now).1
      (computePeriod env.now).2 with
  | error e =>
      rw [performSync_fetch_error_eq env db timetableId t creds provider bytes
        parsed e hq ht hc hp hd hj hg]
  | ok fetched =>
      rw [performSync_reconcile_eq env db timetableId t creds provider bytes
        parsed fetched hq ht hc hp hd hj hg]

/-- C10 (amended): the credentials object passed to `getSchedule` is the
JSON-decoded decrypted record, with its `schoolId` field overwritten by the
entity's `schoolId` exactly when the latter is non-null *and non-empty*
(the code guards the overwrite with a JS truthiness test); for a null — or
empty-string — entity `schoolId` the parsed credentials pass through
unmodified. -/
theorem c10_credentials_school_override (env : SyncEnv) (db : DB)
    (timetableId : String)
    (t : Timetable) (creds : CredentialRecord) (provider : Provider)
    (bytes : List Nat) (parsed : ProviderCredentials)
    (hq : env.queueAvailable = true)
    (ht : db.timetables.find? (fun t2 => t2.id == timetableId) = some t)
    (hc : t.credentials = some creds)
    (hp : env.getProviderFn t.providerId = some provider)
    (hd : decrypt env.encryptionKey creds.encryptedCredentials creds.iv = Except.ok bytes)
    (hj : env.parseJson bytes = Except.ok parsed) :
    ((t.schoolId = none ∨ t.schoolId = some "") →
      (performSync env db timetableId).providerCalls =
        [⟨parsed, (computePeriod env.now).1, (computePeriod env.now).2⟩]) ∧
    (∀ s, t.schoolId = some s → s ≠ "" →
      (performSync env db timetableId).providerCalls =
        [⟨{ parsed with schoolId := some s }, (computePeriod env.now).1,
          (computePeriod env.now).2⟩]) := by
  have hcalls := performSync_providerCalls_eq env db timetableId t creds provider
    bytes parsed hq ht hc hp hd hj
  constructor
  · intro hs
    rw [hcalls]
    rcases hs with hs | hs <;> simp [applySchoolId, hs]
  · intro s hs hne
    rw [hcalls]
    simp [applySchoolId, hs, hne]

/-- Timetable whose `schoolId` is the (non-null) empty string. -/
def tEmptySchool : Timetable :=
  { id := "t1", userId := "u1", providerId := "prov", schoolId := some ""
    syncInterval := 60, lastSyncedAt := none, credentials := some credsSync }

/-- State holding `tEmptySchool`. -/
def dbEmptySchool : DB :=
  { timetables := [tEmptySchool], courses := [], repeatableJobs := []
    oneOffJobs := [] }

/-- Environment whose JSON parser yields credentials already carrying a
stored `schoolId` of `"sch"`. -/
def envEmptySchool : SyncEnv :=
  { queueAvailable := true
    encryptionKey := "k"
    getProviderFn := fun _ => some provEmpty
    parseJson := fun _ => Except.ok { rest := "rest", schoolId := some "sch" }
    now := { year := 2024, month := 3, day := 1 }
    uuid := fun _ => "uuid-0" }

/-- C10 counterexample: the entity `tEmptySchool` has the non-null
`schoolId` `some ""`, yet the credentials object passed to the provider
keeps its stored `schoolId` `"sch"` instead of being set to the entity's
value, refuting the claim that a non-null entity `schoolId` is always
copied over. -/
theorem c10_credentials_school_override_counterexample :
    tEmptySchool.schoolId = some "" ∧
    (performSync envEmptySchool dbEmptySchool "t1").providerCalls.map
      (fun c => c.credentials.schoolId) = [some "sch"] ∧
    (some "sch" : Option String) ≠ some "" := by
  refine ⟨rfl, ?_, by decide⟩
  decide

/-- C10 witness: the hypotheses of `c10_credentials_school_override` hold
at the concrete state `dbSync` (entity `schoolId` null → pass-through). -/
theorem c10_credentials_school_override_witness :
    (performSync (mkEnv provEmpty) dbSync "t1").providerCalls =
      [⟨parsedSync, (computePeriod (mkEnv provEmpty).now).1,
        (computePeriod (mkEnv provEmpty).now).2⟩] :=
  (c10_credentials_school_override (mkEnv provEmpty) dbSync "t1" tSync credsSync
    provEmpty [1, 2] parsedSync rfl (by decide) rfl rfl (by decide) rfl).1
    (Or.inl rfl)

/-! ## Claim C2 -/

theorem isEmpty_false_of_ne_nil {l : List Nat} (h : l ≠ []) : l.isEmpty = false := by
  cases l with
  | nil => exact absurd rfl h
  | cons a t => rfl

theorem xorKS_ne_nil (key iv : String) {pt : List Nat} (hpt : pt ≠ []) :
    xorKS key iv 0 pt ≠ [] := by
  cases pt with
  | nil => exact absurd rfl hpt
  | cons a t => simp [xorKS]

/-- C2 (amended): for every *non-empty* plaintext, decrypting the output of
`encrypt` returns the plaintext, and flipping any bit of the stored
ciphertext part or of the authentication tag makes `decrypt` fail with the
authentication error; the empty plaintext is the exception — its ciphertext
part is the empty string, which `decrypt` rejects as malformed before the
tag is even checked. -/
theorem c2_encryption_round_trip (key iv : String) (pt : List Nat)
    (hpt : pt ≠ []) :
    decrypt key (encrypt key iv pt).encryptedData (encrypt key iv pt).iv =
      Except.ok pt ∧
    (∀ i k, i < (encrypt key iv pt).encryptedData.ciphertext.length →
      decrypt key
        { ciphertext := flipBit (encrypt key iv pt).encryptedData.ciphertext i k
          authTag := (encrypt key iv pt).encryptedData.authTag } iv =
        Except.error DecryptError.authenticationFailed) ∧
    (∀ k, decrypt key
        { ciphertext := (encrypt key iv pt).encryptedData.ciphertext
          authTag := (encrypt key iv pt).encryptedData.authTag ^^^ 2 ^ k } iv =
        Except.error DecryptError.authenticationFailed) := by
  refine ⟨?_, ?_, ?_⟩
  · simp only [encrypt, decrypt, isEmpty_false_of_ne_nil (xorKS_ne_nil key iv hpt)]
    simp [xorKS_xorKS]
  · intro i k hi
    simp only [encrypt] at hi ⊢
    have hlen : (flipBit (xorKS key iv 0 pt) i k).length =
        (xorKS key iv 0 pt).length := by
      simp [flipBit]
    have hne : flipBit (xorKS key iv 0 pt) i k ≠ [] := by
      intro h
      rw [h] at hlen
      simp at hlen
      omega
    have htag : ¬ (gcmTag key iv (xorKS key iv 0 pt) =
        gcmTag key iv (flipBit (xorKS key iv 0 pt) i k)) := by
      intro h
      exact flipBit_ne _ i k hi (gcmTag_inj_ct key iv h.symm)
    simp only [decrypt, isEmpty_false_of_ne_nil hne]
    simp [htag]
  · intro k
    simp only [encrypt]
    have htag : ¬ (gcmTag key iv (xorKS key iv 0 pt) ^^^ 2 ^ k =
        gcmTag key iv (xorKS key iv 0 pt)) := by
      intro h
      have hx : gcmTag key iv (xorKS key iv 0 pt) ^^^
          (gcmTag key iv (xorKS key iv 0 pt) ^^^ 2 ^ k) =
          gcmTag key iv (xorKS key iv 0 pt) ^^^ gcmTag key iv (xorKS key iv 0 pt) := by
        rw [h]
      rw [Nat.xor_cancel_left, Nat.xor_self] at hx
      have h2 : (2:Nat) ^ k ≠ 0 := by positivity
      exact h2 hx
    simp only [decrypt, isEmpty_false_of_ne_nil (xorKS_ne_nil key iv hpt)]
    simp [htag]

/-- C2 counterexample: encrypting the empty plaintext yields the stored
blob `":<tag>"` whose ciphertext part is empty, so decryption of its own
encryption fails with the malformed-format error instead of returning the
plaintext — the universally quantified round-trip claim is false at
`P = ""`. -/
theorem c2_encryption_round_trip_counterexample :
    decrypt FALLBACK_KEY (encrypt FALLBACK_KEY "00ff" []).encryptedData
      (encrypt FALLBACK_KEY "00ff" []).iv = Except.error DecryptError.malformed ∧
    (Except.error DecryptError.malformed : Except DecryptError (List Nat)) ≠
      Except.ok [] := ⟨rfl, by decide⟩

/-- C2 witness: the round-trip holds at the concrete non-empty plaintext
`[7, 200]` under key `"k"` and IV `"i"`. -/
theorem c2_encryption_round_trip_witness :
    ([7, 200] : List Nat) ≠ [] ∧
    decrypt "k" (encrypt "k" "i" [7, 200]).encryptedData
      (encrypt "k" "i" [7, 200]).iv = Except.ok [7, 200] :=
  ⟨by decide, (c2_encryption_round_trip "k" "i" [7, 200] (by decide)).1⟩

/-! ## Claim C8 -/

/-- C8 (amended): the encryption module fails fast at startup when a
non-empty key is configured whose length is not exactly 32; when the key is
absent (or empty, which JS `||` treats the same), the module silently falls
back to a hard-coded 32-character development key and startup succeeds. -/
theorem c8_key_length_check (k : String) (hne : k ≠ "") (hlen : k.length ≠ 32) :
    startupKeyCheck (some k) =
      Except.error "ENCRYPTION_KEY must be exactly 32 characters long." := by
  simp [startupKeyCheck, effectiveEncryptionKey, hne, hlen]

/-- C8 counterexample: with the configured key absent, startup does not
fail — the check accepts the built-in development fallback key — refuting
the claim that an absent key prevents startup. -/
theorem c8_key_length_check_counterexample :
    startupKeyCheck none = Except.ok FALLBACK_KEY ∧
    FALLBACK_KEY.length = 32 := ⟨rfl, by decide⟩

/-- C8 witness: the hypotheses of `c8_key_length_check` hold at the
concrete configured key `"short"`. -/
theorem c8_key_length_check_witness :
    ("short" : String) ≠ "" ∧ ("short" : String).length ≠ 32 ∧
    startupKeyCheck (some "short") =
      Except.error "ENCRYPTION_KEY must be exactly 32 characters long." :=
  ⟨by decide, by decide, c8_key_length_check "short" (by decide) (by decide)⟩

/-! ## Claim C9 -/

/-- C9: when a timetable already exists for the (owning user, provider,
normalized organization) triple, `POST /api/timetables` answers
`ALREADY_EXISTS` and stores nothing — the state is returned unchanged, so
no new entity or credential record appears and the at-most-one-per-triple
invariant is upheld. -/
theorem c9_duplicate_triple_rejected (env : CreateEnv) (db : DB) (s : Session)
    (body : CreateBody) (provider : Provider) (t0 : Timetable)
    (hv : s.emailVerified = true)
    (hfields : ¬ (body.providerId = "" ∨ body.identifier = "" ∨ body.password = ""))
    (hp : env.getProviderFn body.providerId = some provider)
    (hschool : ¬ (provider.schools.length > 0 ∧ schoolIdFalsy body.schoolId = true))
    (hvalid : provider.validateCredentials body.identifier body.password body.schoolId =
      Except.ok true)
    (hex : db.timetables.find? (fun t =>
        t.userId == s.userId && t.providerId == body.providerId &&
        t.schoolId == normalizeSchoolId body.schoolId) = some t0) :
    createTimetable env db (some s) body = (CreateResult.alreadyExists, db) := by
  simp [createTimetable, hv, hfields, hp, hschool, hvalid, hex]

/-- Session of the creation-handler witness. -/
def sessionW : Session := { userId := "u1", emailVerified := true }

/-- Request body of the creation-handler witness, naming the triple that
`dbSync` already holds. -/
def bodyW : CreateBody :=
  { providerId := "prov", schoolId := none, identifier := "id1"
    password := "pw", syncInterval := 60 }

/-- Environment of the creation-handler witness. -/
def createEnvW : CreateEnv :=
  { queueAvailable := true, encryptionKey := "k"
    getProviderFn := fun _ => some provOk, freshIv := "i", newId := "t9" }

/-- C9 witness: the hypotheses of `c9_duplicate_triple_rejected` hold at
the concrete state `dbSync`, which already holds a timetable for
(`u1`, `prov`, null school). -/
theorem c9_duplicate_triple_rejected_witness :
    createTimetable createEnvW dbSync (some sessionW) bodyW =
      (CreateResult.alreadyExists, dbSync) :=
  c9_duplicate_triple_rejected createEnvW dbSync sessionW bodyW provOk tSync
    rfl (by decide) rfl (by decide) rfl (by decide)

end OTS
